import Mathlib

/-!
Shallow embedding of the `projections` repository (gnomonic strategy and
default-projection registration) and verification of its specification.

The numerical code (`src/projection/gnomonic/strategy.py`) works on numpy
float arrays elementwise; we embed the per-point computation over the exact
reals, modelling an IEEE NaN result as `Option.none` at the single place the
code can produce one (a `0/0` division when `rho = 0`).
-/

/-- Configuration of the gnomonic projection (`GnomonicConfig`): sphere
radius `R` and the projection center `(phi1_deg, lam0_deg)` in degrees. -/
structure GnomonicConfig where
  R : ℝ
  phi1_deg : ℝ
  lam0_deg : ℝ

/-- `np.deg2rad`: degrees to radians. -/
noncomputable def deg2rad (d : ℝ) : ℝ := d * (Real.pi / 180)

/-- `np.rad2deg`: radians to degrees. -/
noncomputable def rad2deg (r : ℝ) : ℝ := r * (180 / Real.pi)

/-- `np.arctan2 y x`: the two-argument arctangent, following the IEEE
convention (`arctan2 0 0 = 0` for positive zeros, the only zero our real
model has). -/
noncomputable def arctan2 (y x : ℝ) : ℝ :=
  if 0 < x then Real.arctan (y / x)
  else if x < 0 then
    (if 0 ≤ y then Real.arctan (y / x) + Real.pi else Real.arctan (y / x) - Real.pi)
  else if 0 < y then Real.pi / 2
  else if y < 0 then -(Real.pi / 2)
  else 0

/-- The tiny constant `1e-10` used by the zero-division guard in
`from_spherical_to_projection` (line 137 of strategy.py). -/
noncomputable def eps : ℝ := 1 / 10 ^ 10

/-- Line 130-133 of strategy.py: the raw
`cos_c = sin(phi1)*sin(phi) + cos(phi1)*cos(phi)*cos(lam - lam0)`
computed by `from_spherical_to_projection` before the zero guard, with
`phi = deg2rad lat`, `lam = deg2rad lon`. -/
noncomputable def cos_c_raw (cfg : GnomonicConfig) (lat lon : ℝ) : ℝ :=
  Real.sin (deg2rad cfg.phi1_deg) * Real.sin (deg2rad lat) +
    Real.cos (deg2rad cfg.phi1_deg) * Real.cos (deg2rad lat) *
      Real.cos (deg2rad lon - deg2rad cfg.lam0_deg)

/-- Line 137 of strategy.py: `cos_c = np.where(cos_c == 0, 1e-10, cos_c)`. -/
noncomputable def cos_c_guarded (cfg : GnomonicConfig) (lat lon : ℝ) : ℝ :=
  if cos_c_raw cfg lat lon = 0 then eps else cos_c_raw cfg lat lon

/-- Line 141 of strategy.py:
`x = R * cos(phi) * sin(lam - lam0) / cos_c` (with the guarded `cos_c`). -/
noncomputable def fwd_x (cfg : GnomonicConfig) (lat lon : ℝ) : ℝ :=
  cfg.R * Real.cos (deg2rad lat) * Real.sin (deg2rad lon - deg2rad cfg.lam0_deg) /
    cos_c_guarded cfg lat lon

/-- Line 145-148 of strategy.py:
`y = R * (cos(phi1)*sin(phi) - sin(phi1)*cos(phi)*cos(lam - lam0)) / cos_c`
(with the guarded `cos_c`). -/
noncomputable def fwd_y (cfg : GnomonicConfig) (lat lon : ℝ) : ℝ :=
  cfg.R *
      (Real.cos (deg2rad cfg.phi1_deg) * Real.sin (deg2rad lat) -
        Real.sin (deg2rad cfg.phi1_deg) * Real.cos (deg2rad lat) *
          Real.cos (deg2rad lon - deg2rad cfg.lam0_deg)) /
    cos_c_guarded cfg lat lon

/-- Line 152 of strategy.py: `mask = cos_c > 0`, where `cos_c` is the
value AFTER the `np.where` replacement of line 137. -/
def fwd_mask (cfg : GnomonicConfig) (lat lon : ℝ) : Prop :=
  0 < cos_c_guarded cfg lat lon

/-- `GnomonicProjectionStrategy.from_spherical_to_projection` on one point:
returns `(x, y, mask)` (lines 102-156 of strategy.py). -/
noncomputable def from_spherical_to_projection (cfg : GnomonicConfig) (lat lon : ℝ) :
    ℝ × ℝ × Prop :=
  (fwd_x cfg lat lon, fwd_y cfg lat lon, fwd_mask cfg lat lon)

/-- Line 70 of strategy.py: `rho = sqrt(x**2 + y**2)`. -/
noncomputable def rho (x y : ℝ) : ℝ := Real.sqrt (x ^ 2 + y ^ 2)

/-- Line 74 of strategy.py: `c = np.arctan2(rho, R)`. -/
noncomputable def aux_c (cfg : GnomonicConfig) (x y : ℝ) : ℝ :=
  arctan2 (rho x y) cfg.R

/-- Line 79 of strategy.py:
`phi = arcsin(cos_c * sin(phi1) - (y * sin_c * cos(phi1)) / rho)`, in
degrees after line 90. When `rho = 0` (so `x = y = 0` and the numerator
`y * sin_c` is also `0`), numpy computes `0/0 = NaN`, which propagates
through `arcsin` and `rad2deg`; we model that NaN as `none`. For
`rho ≠ 0` the real division is exact and the `arcsin` argument lies in
`[-1, 1]`, so `Real.arcsin` agrees with `np.arcsin`. -/
noncomputable def inv_lat (cfg : GnomonicConfig) (x y : ℝ) : Option ℝ :=
  if rho x y = 0 then none
  else
    some (rad2deg (Real.arcsin
      (Real.cos (aux_c cfg x y) * Real.sin (deg2rad cfg.phi1_deg) -
        y * Real.sin (aux_c cfg x y) * Real.cos (deg2rad cfg.phi1_deg) / rho x y)))

/-- Line 83-86 of strategy.py:
`lam = lam0 + arctan2(x * sin_c, rho * cos(phi1) * cos_c + y * sin(phi1) * sin_c)`,
in degrees after line 91. -/
noncomputable def inv_lon (cfg : GnomonicConfig) (x y : ℝ) : ℝ :=
  rad2deg (deg2rad cfg.lam0_deg +
    arctan2 (x * Real.sin (aux_c cfg x y))
      (rho x y * Real.cos (deg2rad cfg.phi1_deg) * Real.cos (aux_c cfg x y) +
        y * Real.sin (deg2rad cfg.phi1_deg) * Real.sin (aux_c cfg x y)))

/-- `GnomonicProjectionStrategy.from_projection_to_spherical` on one point:
returns `(lat, lon)` in degrees, `lat` being `none` when the computation
produces IEEE NaN (lines 46-95 of strategy.py). -/
noncomputable def from_projection_to_spherical (cfg : GnomonicConfig) (x y : ℝ) :
    Option ℝ × ℝ :=
  (inv_lat cfg x y, inv_lon cfg x y)

lemma arctan2_zero_zero : arctan2 0 0 = 0 := by
  unfold arctan2; norm_num

lemma rad2deg_deg2rad (d : ℝ) : rad2deg (deg2rad d) = d := by
  unfold rad2deg deg2rad
  field_simp

lemma cos_c_raw_antipode (cfg : GnomonicConfig) :
    cos_c_raw cfg (-cfg.phi1_deg) (cfg.lam0_deg + 180) = -1 := by
  have e1 : deg2rad (-cfg.phi1_deg) = -deg2rad cfg.phi1_deg := by unfold deg2rad; ring
  have e2 : deg2rad (cfg.lam0_deg + 180) - deg2rad cfg.lam0_deg = Real.pi := by
    unfold deg2rad; ring
  unfold cos_c_raw
  rw [e1, e2, Real.sin_neg, Real.cos_neg, Real.cos_pi]
  linear_combination -Real.sin_sq_add_cos_sq (deg2rad cfg.phi1_deg)

lemma cos_c_raw_center (cfg : GnomonicConfig) :
    cos_c_raw cfg cfg.phi1_deg cfg.lam0_deg = 1 := by
  unfold cos_c_raw
  rw [sub_self, Real.cos_zero]
  linear_combination Real.sin_sq_add_cos_sq (deg2rad cfg.phi1_deg)

lemma mask_antipode (cfg : GnomonicConfig) :
    ¬ fwd_mask cfg (-cfg.phi1_deg) (cfg.lam0_deg + 180) := by
  unfold fwd_mask cos_c_guarded
  simp only [cos_c_raw_antipode]
  norm_num

lemma mask_center (cfg : GnomonicConfig) :
    fwd_mask cfg cfg.phi1_deg cfg.lam0_deg := by
  unfold fwd_mask cos_c_guarded
  simp only [cos_c_raw_center]
  norm_num

lemma fwd_x_center (cfg : GnomonicConfig) :
    fwd_x cfg cfg.phi1_deg cfg.lam0_deg = 0 := by
  unfold fwd_x
  rw [sub_self, Real.sin_zero, mul_zero, zero_div]

lemma fwd_y_center (cfg : GnomonicConfig) :
    fwd_y cfg cfg.phi1_deg cfg.lam0_deg = 0 := by
  unfold fwd_y
  rw [sub_self, Real.cos_zero]
  ring_nf

/-- C1: the spec requires the inverse transform at `(x, y) = (0, 0)` to
return exactly `(phi1_deg, lam0_deg)` with no NaN; the code has no
`rho = 0` guard, computes `0/0 = NaN` inside the `arcsin` argument, and
returns latitude NaN (modelled as `none`) together with longitude
`lam0_deg`, for every configuration. -/
theorem c1_zero_radius_gives_nan (cfg : GnomonicConfig) :
    from_projection_to_spherical cfg 0 0 = (none, cfg.lam0_deg) := by
  have hrho : rho 0 0 = 0 := by unfold rho; simp
  unfold from_projection_to_spherical inv_lat inv_lon
  rw [hrho]
  simp [arctan2_zero_zero, rad2deg_deg2rad]

/-- C3 counterexample: with center `(phi1, lam0) = (0, 0)` the input point
`(lat, lon) = (0, 90)` lies exactly on the horizon (`cos_c = 0`), yet the
mask is true, because the code computes the mask from the guarded `cos_c`
(which replaced `0` by `1e-10`); the claim says such a point must have
mask false. -/
theorem c3_horizon_mask_true :
    cos_c_raw ⟨1, 0, 0⟩ 0 90 = 0 ∧ fwd_mask ⟨1, 0, 0⟩ 0 90 := by
  have h90 : deg2rad 90 = Real.pi / 2 := by unfold deg2rad; ring
  have h0 : deg2rad 0 = 0 := by unfold deg2rad; ring
  have hraw : cos_c_raw ⟨1, 0, 0⟩ 0 90 = 0 := by
    unfold cos_c_raw
    simp [h90, h0]
  refine ⟨hraw, ?_⟩
  unfold fwd_mask cos_c_guarded
  simp only [hraw]
  norm_num [eps]

/-- C3 amended: the mask returned by `from_spherical_to_projection` is true
iff `cos_c_raw ≥ 0`, i.e. the closed hemisphere including the horizon:
points with `cos_c_raw` exactly `0` get mask true (the guard rewrites the
zero to the positive `1e-10` before the mask is computed). -/
theorem c3_mask_iff_nonneg (cfg : GnomonicConfig) (lat lon : ℝ) :
    (from_spherical_to_projection cfg lat lon).2.2 ↔ 0 ≤ cos_c_raw cfg lat lon := by
  show fwd_mask cfg lat lon ↔ _
  unfold fwd_mask cos_c_guarded
  by_cases h : cos_c_raw cfg lat lon = 0
  · simp only [h, if_pos rfl]
    norm_num [eps]
  · rw [if_neg h]
    constructor
    · exact le_of_lt
    · intro hle
      exact lt_of_le_of_ne hle (Ne.symm h)

/-- C4: for the gnomonic forward transform, the exact antipode of the
projection center yields mask false, and the center itself yields
`(x, y) = (0, 0)` with mask true, for every configuration. -/
theorem c4_antipode_and_center (cfg : GnomonicConfig) :
    ¬ (from_spherical_to_projection cfg (-cfg.phi1_deg) (cfg.lam0_deg + 180)).2.2 ∧
      (from_spherical_to_projection cfg cfg.phi1_deg cfg.lam0_deg).1 = 0 ∧
      (from_spherical_to_projection cfg cfg.phi1_deg cfg.lam0_deg).2.1 = 0 ∧
      (from_spherical_to_projection cfg cfg.phi1_deg cfg.lam0_deg).2.2 :=
  ⟨mask_antipode cfg, fwd_x_center cfg, fwd_y_center cfg, mask_center cfg⟩

/-- Spec-side formula for the forward `x`, transcribed from the claim's
words: `x = R * cos(phi) * sin(lam - lam0) / cos_c` with the exact zeros of
`cos_c` replaced by the tiny positive epsilon. -/
noncomputable def spec_forward_x (cfg : GnomonicConfig) (lat lon : ℝ) : ℝ :=
  cfg.R * Real.cos (deg2rad lat) * Real.sin (deg2rad lon - deg2rad cfg.lam0_deg) /
    (if cos_c_raw cfg lat lon = 0 then eps else cos_c_raw cfg lat lon)

/-- Spec-side formula for the forward `y`, transcribed from the claim's
words: `y = R * (cos(phi1)*sin(phi) - sin(phi1)*cos(phi)*cos(lam - lam0)) / cos_c`
with the same guarded `cos_c`. -/
noncomputable def spec_forward_y (cfg : GnomonicConfig) (lat lon : ℝ) : ℝ :=
  cfg.R *
      (Real.cos (deg2rad cfg.phi1_deg) * Real.sin (deg2rad lat) -
        Real.sin (deg2rad cfg.phi1_deg) * Real.cos (deg2rad lat) *
          Real.cos (deg2rad lon - deg2rad cfg.lam0_deg)) /
    (if cos_c_raw cfg lat lon = 0 then eps else cos_c_raw cfg lat lon)

/-- C5: the forward transform computes exactly the claimed formulas — the
guarded `cos_c` (zeros replaced by the tiny positive `eps`), then
`x = R*cos(phi)*sin(lam-lam0)/cos_c` and
`y = R*(cos(phi1)*sin(phi) - sin(phi1)*cos(phi)*cos(lam-lam0))/cos_c` —
and the guarded divisor is nonzero for every input, so `x` and `y` are
always defined. -/
theorem c5_forward_formulas (cfg : GnomonicConfig) (lat lon : ℝ) :
    cos_c_guarded cfg lat lon ≠ 0 ∧ 0 < eps ∧
      (from_spherical_to_projection cfg lat lon).1 = spec_forward_x cfg lat lon ∧
      (from_spherical_to_projection cfg lat lon).2.1 = spec_forward_y cfg lat lon := by
  refine ⟨?_, by norm_num [eps], rfl, rfl⟩
  unfold cos_c_guarded
  by_cases h : cos_c_raw cfg lat lon = 0
  · rw [if_pos h]; norm_num [eps]
  · rw [if_neg h]; exact h

/-- Spec-side formula for the inverse latitude (radians), transcribed from
the claim's words: `phi = asin(cos(c)*sin(phi1) - (y*sin(c)*cos(phi1))/rho)`
with `rho = sqrt(x^2+y^2)` and `c = atan2(rho, R)`. -/
noncomputable def spec_inverse_phi (cfg : GnomonicConfig) (x y : ℝ) : ℝ :=
  Real.arcsin
    (Real.cos (arctan2 (Real.sqrt (x ^ 2 + y ^ 2)) cfg.R) * Real.sin (deg2rad cfg.phi1_deg) -
      y * Real.sin (arctan2 (Real.sqrt (x ^ 2 + y ^ 2)) cfg.R) *
        Real.cos (deg2rad cfg.phi1_deg) / Real.sqrt (x ^ 2 + y ^ 2))

/-- Spec-side formula for the inverse longitude (radians), transcribed from
the claim's words:
`lam = lam0 + atan2(x*sin(c), rho*cos(phi1)*cos(c) + y*sin(phi1)*sin(c))`. -/
noncomputable def spec_inverse_lam (cfg : GnomonicConfig) (x y : ℝ) : ℝ :=
  deg2rad cfg.lam0_deg +
    arctan2 (x * Real.sin (arctan2 (Real.sqrt (x ^ 2 + y ^ 2)) cfg.R))
      (Real.sqrt (x ^ 2 + y ^ 2) * Real.cos (deg2rad cfg.phi1_deg) *
          Real.cos (arctan2 (Real.sqrt (x ^ 2 + y ^ 2)) cfg.R) +
        y * Real.sin (deg2rad cfg.phi1_deg) *
          Real.sin (arctan2 (Real.sqrt (x ^ 2 + y ^ 2)) cfg.R))

/-- C6: for every planar input with `rho = sqrt(x^2+y^2) > 0`, the inverse
transform returns exactly the claimed formulas, converted from radians to
degrees (latitude is a genuine value, not NaN). -/
theorem c6_inverse_formulas (cfg : GnomonicConfig) (x y : ℝ)
    (h : 0 < Real.sqrt (x ^ 2 + y ^ 2)) :
    from_projection_to_spherical cfg x y =
      (some (rad2deg (spec_inverse_phi cfg x y)), rad2deg (spec_inverse_lam cfg x y)) := by
  have hne : rho x y ≠ 0 := ne_of_gt h
  unfold from_projection_to_spherical inv_lat inv_lon
  rw [if_neg hne]
  unfold aux_c rho spec_inverse_phi spec_inverse_lam
  rfl

/-- Witness for C6 at the concrete input `cfg = ⟨1, 0, 0⟩`, `(x, y) = (1, 0)`,
where `rho = sqrt(1) = 1 > 0`. -/
theorem c6_inverse_formulas_witness :
    from_projection_to_spherical ⟨1, 0, 0⟩ 1 0 =
      (some (rad2deg (spec_inverse_phi ⟨1, 0, 0⟩ 1 0)),
        rad2deg (spec_inverse_lam ⟨1, 0, 0⟩ 1 0)) :=
  c6_inverse_formulas ⟨1, 0, 0⟩ 1 0 (by
    rw [show (1 : ℝ) ^ 2 + 0 ^ 2 = 1 by norm_num, Real.sqrt_one]
    norm_num)

lemma cos_pi_div_four_pos : 0 < Real.cos (Real.pi / 4) := by
  rw [Real.cos_pi_div_four]
  have h2 : (0 : ℝ) < Real.sqrt 2 := Real.sqrt_pos.mpr (by norm_num)
  linarith

lemma c7_raw : cos_c_raw ⟨1, 0, 0⟩ 45 0 = Real.cos (Real.pi / 4) := by
  unfold cos_c_raw deg2rad
  rw [show (45 : ℝ) * (Real.pi / 180) = Real.pi / 4 from by ring]
  norm_num

lemma c7_guard : cos_c_guarded ⟨1, 0, 0⟩ 45 0 = Real.cos (Real.pi / 4) := by
  unfold cos_c_guarded
  rw [c7_raw, if_neg (ne_of_gt cos_pi_div_four_pos)]

lemma c7_fwd_x : fwd_x ⟨1, 0, 0⟩ 45 0 = 0 := by
  unfold fwd_x deg2rad
  norm_num

lemma c7_fwd_y : fwd_y ⟨1, 0, 0⟩ 45 0 = 1 := by
  unfold fwd_y
  rw [c7_guard]
  unfold deg2rad
  rw [show (45 : ℝ) * (Real.pi / 180) = Real.pi / 4 from by ring]
  have h2 : (0 : ℝ) < Real.sqrt 2 := Real.sqrt_pos.mpr (by norm_num)
  norm_num [Real.sin_pi_div_four, Real.cos_pi_div_four]

lemma c7_mask : fwd_mask ⟨1, 0, 0⟩ 45 0 := by
  unfold fwd_mask
  rw [c7_guard]
  exact cos_pi_div_four_pos

lemma c7_rho : rho 0 1 = 1 := by
  unfold rho
  rw [show (0 : ℝ) ^ 2 + 1 ^ 2 = 1 by norm_num, Real.sqrt_one]

lemma c7_c : aux_c ⟨1, 0, 0⟩ 0 1 = Real.pi / 4 := by
  unfold aux_c
  rw [c7_rho]
  have hR : (⟨1, 0, 0⟩ : GnomonicConfig).R = 1 := rfl
  rw [hR]
  unfold arctan2
  rw [if_pos one_pos]
  norm_num [Real.arctan_one]

lemma c7_inv_lat : inv_lat ⟨1, 0, 0⟩ 0 1 = some (-45) := by
  unfold inv_lat
  simp only [c7_rho, c7_c]
  rw [if_neg one_ne_zero]
  have hphi : deg2rad (⟨1, 0, 0⟩ : GnomonicConfig).phi1_deg = 0 := by
    unfold deg2rad; norm_num
  rw [hphi]
  simp only [Real.sin_zero, Real.cos_zero, mul_zero, mul_one, one_mul, div_one, zero_sub]
  rw [Real.arcsin_neg]
  have h1 : -(Real.pi / 2) ≤ Real.pi / 4 := by linarith [Real.pi_pos]
  have h2 : Real.pi / 4 ≤ Real.pi / 2 := by linarith [Real.pi_pos]
  rw [Real.arcsin_sin h1 h2]
  have : rad2deg (-(Real.pi / 4)) = -45 := by
    unfold rad2deg
    field_simp
    ring
  rw [this]

lemma c7_inv_lon : inv_lon ⟨1, 0, 0⟩ 0 1 = 0 := by
  unfold inv_lon
  simp only [c7_rho, c7_c]
  have hphi : deg2rad (⟨1, 0, 0⟩ : GnomonicConfig).phi1_deg = 0 := by
    unfold deg2rad; norm_num
  rw [hphi]
  simp only [Real.sin_zero, Real.cos_zero, zero_mul, mul_zero, mul_one, one_mul,
    add_zero, zero_add]
  have ha : arctan2 0 (Real.cos (Real.pi / 4)) = 0 := by
    unfold arctan2
    rw [if_pos cos_pi_div_four_pos]
    simp [Real.arctan_zero]
  rw [ha]
  unfold rad2deg
  ring

/-- C7: the round-trip claim fails at an ordinary mask-true point. With
center `(0, 0)` and `R = 1`, the forward transform of `(lat, lon) = (45, 0)`
yields `(x, y) = (0, 1)` with mask true, but the inverse transform of that
`(x, y)` returns latitude `-45`, not `45` — off by 90 degrees, far beyond
the 1e-6 tolerance (the inverse uses `-y` where the forward produced `+y`). -/
theorem c7_roundtrip_failure :
    (from_spherical_to_projection ⟨1, 0, 0⟩ 45 0).2.2 ∧
      from_projection_to_spherical ⟨1, 0, 0⟩
          (from_spherical_to_projection ⟨1, 0, 0⟩ 45 0).1
          (from_spherical_to_projection ⟨1, 0, 0⟩ 45 0).2.1 = (some (-45), 0) ∧
      ¬ |(-45 : ℝ) - 45| ≤ 1 / 10 ^ 6 := by
  refine ⟨c7_mask, ?_, by norm_num⟩
  rw [show (from_spherical_to_projection ⟨1, 0, 0⟩ 45 0).1 = 0 from c7_fwd_x,
    show (from_spherical_to_projection ⟨1, 0, 0⟩ 45 0).2.1 = 1 from c7_fwd_y]
  unfold from_projection_to_spherical
  rw [c7_inv_lat, c7_inv_lon]

/-- Python exception values relevant to the registration code:
`RegistrationError` (with its message and, when chained via `raise ... from e`,
its cause) and any other exception. -/
inductive PyError where
  | registrationError (msg : String) (cause : Option PyError)
  | otherError (msg : String)

/-- Message of an exception, as interpolated by the f-strings of
`default_projections.py`. -/
def errorMessage : PyError → String
  | .registrationError m _ => m
  | .otherError m => m

/-- A component bundle as passed to `ProjectionRegistry.register` in
`default_projections.py`; each field holds the name of the component class.
The structure always carries all five required keys. -/
structure Bundle where
  config : String
  grid_generation : String
  projection_strategy : String
  interpolation : String
  transformer : String

/-- The registry: an ordered association of projection names to bundles. -/
abbrev Registry := List (String × Bundle)

/-- Modelled from the spec: `ProjectionRegistry.register` (registry.py is not
under src/). Per the spec it stores `bundle` under `name` and fails with a
RegistrationError if a required key is missing (impossible here: `Bundle`
always has all five keys) or if `name` is already registered (duplicates
rejected outright). -/
def register (name : String) (bundle : Bundle) (reg : Registry) : Except PyError Registry :=
  if (List.any reg fun p => p.1 == name) then
    Except.error (PyError.registrationError ("Projection is already registered: " ++ name) none)
  else
    Except.ok (reg ++ [(name, bundle)])

/-- The bundle registered under "gnomonic" (lines 45-51 of
default_projections.py). -/
def gnomonicBundle : Bundle :=
  ⟨"GnomonicConfig", "GnomonicGridGeneration", "GnomonicProjectionStrategy",
    "BaseInterpolation", "GnomonicTransformer"⟩

/-- The bundle registered under "azimutal_equidistant" (lines 54-60). -/
def azimutalEquidistantBundle : Bundle :=
  ⟨"AzimutalEquidistantConfig", "AzimutalEquidistantGridGeneration",
    "AzimutalEquidistantProjectionStrategy", "BaseInterpolation",
    "AzimutalEquidistantTransformer"⟩

/-- The bundle registered under "mercator" (lines 64-70). -/
def mercatorBundle : Bundle :=
  ⟨"MercatorConfig", "MercatorGridGeneration", "MercatorProjectionStrategy",
    "BaseInterpolation", "MercatorTransformer"⟩

/-- The bundle registered under "stereographic" (lines 73-79). -/
def stereographicBundle : Bundle :=
  ⟨"StereographicConfig", "StereographicGridGeneration",
    "StereographicProjectionStrategy", "BaseInterpolation",
    "StereographicTransformer"⟩

/-- The `try`-body of `register_default_projections` (lines 43-80): the four
registrations performed in source order, each aborting the sequence on
failure, exactly as a raised Python exception would. -/
def register_default_projections_body (reg : Registry) : Except PyError Registry :=
  match register "gnomonic" gnomonicBundle reg with
  | Except.error e => Except.error e
  | Except.ok r1 =>
    match register "azimutal_equidistant" azimutalEquidistantBundle r1 with
    | Except.error e => Except.error e
    | Except.ok r2 =>
      match register "mercator" mercatorBundle r2 with
      | Except.error e => Except.error e
      | Except.ok r3 => register "stereographic" stereographicBundle r3

/-- `register_default_projections` (lines 35-89 of default_projections.py):
runs the four registrations; a `RegistrationError` raised by them is
re-raised as `RegistrationError("Failed to register default projections:
...") from e`, and any other exception as `RegistrationError("An unexpected
error occurred: ...") from e`. -/
def register_default_projections (reg : Registry) : Except PyError Registry :=
  match register_default_projections_body reg with
  | Except.ok r => Except.ok r
  | Except.error (PyError.registrationError m c) =>
      Except.error (PyError.registrationError
        ("Failed to register default projections: " ++ m)
        (some (PyError.registrationError m c)))
  | Except.error e =>
      Except.error (PyError.registrationError
        ("An unexpected error occurred: " ++ errorMessage e) (some e))

/-- The names registered in a registry state, in order. -/
def registeredNames (reg : Registry) : List String := List.map Prod.fst reg

/-- C2 counterexample: running `register_default_projections` on an empty
registry succeeds and registers exactly the four names "gnomonic",
"azimutal_equidistant", "mercator" and "stereographic" — there is no fifth
(oblique-Mercator) registration, so the claimed set of five families is not
all registered. -/
theorem c2_only_four_families :
    register_default_projections [] =
      Except.ok [("gnomonic", gnomonicBundle),
        ("azimutal_equidistant", azimutalEquidistantBundle),
        ("mercator", mercatorBundle),
        ("stereographic", stereographicBundle)] ∧
      registeredNames [("gnomonic", gnomonicBundle),
        ("azimutal_equidistant", azimutalEquidistantBundle),
        ("mercator", mercatorBundle),
        ("stereographic", stereographicBundle)] =
        ["gnomonic", "azimutal_equidistant", "mercator", "stereographic"] :=
  ⟨rfl, rfl⟩

lemma register_ok_shape (name : String) (bundle : Bundle) (reg reg' : Registry)
    (h : register name bundle reg = Except.ok reg') : reg' = reg ++ [(name, bundle)] := by
  unfold register at h
  by_cases hc : (List.any reg fun p => p.1 == name) = true
  · rw [if_pos hc] at h
    exact absurd h (by simp)
  · rw [if_neg hc] at h
    exact ((Except.ok.injEq _ _).mp h).symm

lemma rdp_ok_body_ok (reg reg' : Registry)
    (h : register_default_projections reg = Except.ok reg') :
    register_default_projections_body reg = Except.ok reg' := by
  unfold register_default_projections at h
  rcases hb : register_default_projections_body reg with e | r
  · rw [hb] at h
    cases e <;> simp at h
  · rw [hb] at h
    simp at h
    rw [h]

/-- C2 amended: after a successful call to `register_default_projections`,
the registry contains a component bundle for each of the four families the
code registers — gnomonic, azimutal_equidistant, mercator and stereographic
(the oblique-Mercator family is not part of the registered set). -/
theorem c2_four_families_registered (reg reg' : Registry)
    (h : register_default_projections reg = Except.ok reg') :
    (List.any reg' fun p => p.1 == "gnomonic") = true ∧
      (List.any reg' fun p => p.1 == "azimutal_equidistant") = true ∧
      (List.any reg' fun p => p.1 == "mercator") = true ∧
      (List.any reg' fun p => p.1 == "stereographic") = true := by
  have hbody := rdp_ok_body_ok reg reg' h
  unfold register_default_projections_body at hbody
  rcases h1 : register "gnomonic" gnomonicBundle reg with e1 | r1 <;> rw [h1] at hbody <;>
    simp at hbody
  rcases h2 : register "azimutal_equidistant" azimutalEquidistantBundle r1 with e2 | r2 <;>
    rw [h2] at hbody <;> simp at hbody
  rcases h3 : register "mercator" mercatorBundle r2 with e3 | r3 <;> rw [h3] at hbody <;>
    simp at hbody
  have s1 := register_ok_shape _ _ _ _ h1
  have s2 := register_ok_shape _ _ _ _ h2
  have s3 := register_ok_shape _ _ _ _ h3
  have s4 := register_ok_shape _ _ _ _ hbody
  subst s1 s2 s3 s4
  refine ⟨?_, ?_, ?_, ?_⟩ <;> simp [List.any_append]

/-- Witness for C2 amended at the concrete registry state `[]`, where the
call succeeds and all four families are found in the result. -/
theorem c2_four_families_registered_witness :
    (List.any [("gnomonic", gnomonicBundle),
        ("azimutal_equidistant", azimutalEquidistantBundle),
        ("mercator", mercatorBundle),
        ("stereographic", stereographicBundle)] fun p => p.1 == "gnomonic") = true ∧
      (List.any [("gnomonic", gnomonicBundle),
        ("azimutal_equidistant", azimutalEquidistantBundle),
        ("mercator", mercatorBundle),
        ("stereographic", stereographicBundle)] fun p => p.1 == "azimutal_equidistant") = true ∧
      (List.any [("gnomonic", gnomonicBundle),
        ("azimutal_equidistant", azimutalEquidistantBundle),
        ("mercator", mercatorBundle),
        ("stereographic", stereographicBundle)] fun p => p.1 == "mercator") = true ∧
      (List.any [("gnomonic", gnomonicBundle),
        ("azimutal_equidistant", azimutalEquidistantBundle),
        ("mercator", mercatorBundle),
        ("stereographic", stereographicBundle)] fun p => p.1 == "stereographic") = true :=
  c2_four_families_registered []
    [("gnomonic", gnomonicBundle),
      ("azimutal_equidistant", azimutalEquidistantBundle),
      ("mercator", mercatorBundle),
      ("stereographic", stereographicBundle)] rfl

/-- C9: `register_default_projections` either succeeds, or fails with a
`RegistrationError` whose cause is exactly the exception raised by the
underlying registrations; no error of any other shape escapes. -/
theorem c9_failures_wrapped (reg : Registry) :
    (∃ r, register_default_projections reg = Except.ok r) ∨
      (∃ m c, register_default_projections reg =
          Except.error (PyError.registrationError m (some c)) ∧
        register_default_projections_body reg = Except.error c) := by
  rcases hb : register_default_projections_body reg with e | r
  · right
    cases e with
    | registrationError m c =>
        refine ⟨"Failed to register default projections: " ++ m,
          PyError.registrationError m c, ?_, rfl⟩
        unfold register_default_projections
        rw [hb]
    | otherError m =>
        refine ⟨"An unexpected error occurred: " ++ m, PyError.otherError m, ?_, rfl⟩
        unfold register_default_projections
        rw [hb]
        rfl
  · left
    refine ⟨r, ?_⟩
    unfold register_default_projections
    rw [hb]

/-- The full `from_spherical_to_projection` call including its
`try/except` wrapper (lines 120-161 of strategy.py). The `except` branch
would wrap an exception in a `ProcessingError`; numpy's elementwise
operations on real (float) inputs do not raise — degenerate points produce
NaN values and warnings, not exceptions — so in the real-number model the
body always returns normally. -/
noncomputable def from_spherical_to_projection_call (cfg : GnomonicConfig) (lat lon : ℝ) :
    Except PyError (ℝ × ℝ × Prop) :=
  Except.ok (from_spherical_to_projection cfg lat lon)

/-- The full `from_projection_to_spherical` call including its
`try/except` wrapper (lines 64-100 of strategy.py); as above, the body
never raises on real inputs (the `0/0` at `rho = 0` yields NaN, not an
exception), so the call always returns normally. -/
noncomputable def from_projection_to_spherical_call (cfg : GnomonicConfig) (x y : ℝ) :
    Except PyError (Option ℝ × ℝ) :=
  Except.ok (from_projection_to_spherical cfg x y)

/-- C8: neither strategy operation ever escapes with an error on any input
point: each call returns `ok` of the computed value (invalid or degenerate
points are reported through the mask or a NaN value, never an exception),
so in particular no exception other than the `ProcessingError` wrapper of
an unexpected arithmetic exception is even possible. -/
theorem c8_no_exception_escape (cfg : GnomonicConfig) (lat lon x y : ℝ) (e : PyError) :
    from_spherical_to_projection_call cfg lat lon =
        Except.ok (from_spherical_to_projection cfg lat lon) ∧
      from_projection_to_spherical_call cfg x y =
        Except.ok (from_projection_to_spherical cfg x y) ∧
      from_spherical_to_projection_call cfg lat lon ≠ Except.error e ∧
      from_projection_to_spherical_call cfg x y ≠ Except.error e :=
  ⟨rfl, rfl, by simp [from_spherical_to_projection_call],
    by simp [from_projection_to_spherical_call]⟩

/-- State-passing embedding of a `from_spherical_to_projection` method call
on coordinate arrays: the method receives the strategy's `config` and the
two input arrays, and returns its elementwise outputs together with the
post-call `config` and input arrays (a mutating implementation could return
changed ones; the source only reads them). -/
noncomputable def from_spherical_to_projection_method (cfg : GnomonicConfig)
    (lat lon : List ℝ) :
    List (ℝ × ℝ × Prop) × GnomonicConfig × List ℝ × List ℝ :=
  (List.map (fun p => from_spherical_to_projection cfg p.1 p.2) (List.zip lat lon),
    cfg, lat, lon)

/-- State-passing embedding of a `from_projection_to_spherical` method call
on coordinate arrays, analogous to the forward method. -/
noncomputable def from_projection_to_spherical_method (cfg : GnomonicConfig)
    (x y : List ℝ) :
    List (Option ℝ × ℝ) × GnomonicConfig × List ℝ × List ℝ :=
  (List.map (fun p => from_projection_to_spherical cfg p.1 p.2) (List.zip x y),
    cfg, x, y)

/-- C10: neither strategy method mutates its observable state: after either
call the strategy's `config` (all fields) and the input coordinate arrays
are exactly what they were before the call. -/
theorem c10_methods_pure (cfg : GnomonicConfig) (lat lon x y : List ℝ) :
    (from_spherical_to_projection_method cfg lat lon).2 = (cfg, lat, lon) ∧
      (from_projection_to_spherical_method cfg x y).2 = (cfg, x, y) :=
  ⟨rfl, rfl⟩
